import Mathlib

/-!
Verification of the option/mutation catalog of `fdb_c_options.g.h` (API
version 610) together with the atomic mutation engine and the option
configuration state machine that the catalog documents.

The numeric constants below are transcribed from the source header.  The
mutation engine itself is not part of this repository (the header only
declares `FDBMutationType` and documents each operation in its comments),
so the engine is modelled from the specification, following the source
header comments wherever they describe byte-level behaviour.
-/

/-- A byte string: a list of byte values (each intended `< 256`). -/
abbrev Bytes := List Nat

/- Numeric option codes, transcribed from `FDBNetworkOption`. -/

def FDB_NET_OPTION_LOCAL_ADDRESS : Int := 10
def FDB_NET_OPTION_CLUSTER_FILE : Int := 20
def FDB_NET_OPTION_TRACE_ENABLE : Int := 30
def FDB_NET_OPTION_TRACE_ROLL_SIZE : Int := 31
def FDB_NET_OPTION_TRACE_MAX_LOGS_SIZE : Int := 32
def FDB_NET_OPTION_TRACE_LOG_GROUP : Int := 33
def FDB_NET_OPTION_TRACE_FORMAT : Int := 34
def FDB_NET_OPTION_KNOB : Int := 40
def FDB_NET_OPTION_TLS_PLUGIN : Int := 41
def FDB_NET_OPTION_TLS_CERT_BYTES : Int := 42
def FDB_NET_OPTION_TLS_CERT_PATH : Int := 43
def FDB_NET_OPTION_TLS_KEY_BYTES : Int := 45
def FDB_NET_OPTION_TLS_KEY_PATH : Int := 46
def FDB_NET_OPTION_TLS_VERIFY_PEERS : Int := 47
def FDB_NET_OPTION_BUGGIFY_ENABLE : Int := 48
def FDB_NET_OPTION_BUGGIFY_DISABLE : Int := 49
def FDB_NET_OPTION_BUGGIFY_SECTION_ACTIVATED_PROBABILITY : Int := 50
def FDB_NET_OPTION_BUGGIFY_SECTION_FIRED_PROBABILITY : Int := 51
def FDB_NET_OPTION_TLS_CA_BYTES : Int := 52
def FDB_NET_OPTION_TLS_CA_PATH : Int := 53
def FDB_NET_OPTION_TLS_PASSWORD : Int := 54
def FDB_NET_OPTION_DISABLE_MULTI_VERSION_CLIENT_API : Int := 60
def FDB_NET_OPTION_CALLBACKS_ON_EXTERNAL_THREADS : Int := 61
def FDB_NET_OPTION_EXTERNAL_CLIENT_LIBRARY : Int := 62
def FDB_NET_OPTION_EXTERNAL_CLIENT_DIRECTORY : Int := 63
def FDB_NET_OPTION_DISABLE_LOCAL_CLIENT : Int := 64
def FDB_NET_OPTION_DISABLE_CLIENT_STATISTICS_LOGGING : Int := 70
def FDB_NET_OPTION_ENABLE_SLOW_TASK_PROFILING : Int := 71

/-- All `FDBNetworkOption` codes, in declaration order. -/
def networkOptionCodes : List Int :=
  [FDB_NET_OPTION_LOCAL_ADDRESS, FDB_NET_OPTION_CLUSTER_FILE,
   FDB_NET_OPTION_TRACE_ENABLE, FDB_NET_OPTION_TRACE_ROLL_SIZE,
   FDB_NET_OPTION_TRACE_MAX_LOGS_SIZE, FDB_NET_OPTION_TRACE_LOG_GROUP,
   FDB_NET_OPTION_TRACE_FORMAT, FDB_NET_OPTION_KNOB,
   FDB_NET_OPTION_TLS_PLUGIN, FDB_NET_OPTION_TLS_CERT_BYTES,
   FDB_NET_OPTION_TLS_CERT_PATH, FDB_NET_OPTION_TLS_KEY_BYTES,
   FDB_NET_OPTION_TLS_KEY_PATH, FDB_NET_OPTION_TLS_VERIFY_PEERS,
   FDB_NET_OPTION_BUGGIFY_ENABLE, FDB_NET_OPTION_BUGGIFY_DISABLE,
   FDB_NET_OPTION_BUGGIFY_SECTION_ACTIVATED_PROBABILITY,
   FDB_NET_OPTION_BUGGIFY_SECTION_FIRED_PROBABILITY,
   FDB_NET_OPTION_TLS_CA_BYTES, FDB_NET_OPTION_TLS_CA_PATH,
   FDB_NET_OPTION_TLS_PASSWORD,
   FDB_NET_OPTION_DISABLE_MULTI_VERSION_CLIENT_API,
   FDB_NET_OPTION_CALLBACKS_ON_EXTERNAL_THREADS,
   FDB_NET_OPTION_EXTERNAL_CLIENT_LIBRARY,
   FDB_NET_OPTION_EXTERNAL_CLIENT_DIRECTORY,
   FDB_NET_OPTION_DISABLE_LOCAL_CLIENT,
   FDB_NET_OPTION_DISABLE_CLIENT_STATISTICS_LOGGING,
   FDB_NET_OPTION_ENABLE_SLOW_TASK_PROFILING]

/- Numeric option codes, transcribed from `FDBDatabaseOption`. -/

def FDB_DB_OPTION_LOCATION_CACHE_SIZE : Int := 10
def FDB_DB_OPTION_MAX_WATCHES : Int := 20
def FDB_DB_OPTION_MACHINE_ID : Int := 21
def FDB_DB_OPTION_DATACENTER_ID : Int := 22
def FDB_DB_OPTION_TRANSACTION_TIMEOUT : Int := 500
def FDB_DB_OPTION_TRANSACTION_RETRY_LIMIT : Int := 501
def FDB_DB_OPTION_TRANSACTION_MAX_RETRY_DELAY : Int := 502
def FDB_DB_OPTION_SNAPSHOT_RYW_ENABLE : Int := 26
def FDB_DB_OPTION_SNAPSHOT_RYW_DISABLE : Int := 27

/-- All `FDBDatabaseOption` codes, in declaration order. -/
def databaseOptionCodes : List Int :=
  [FDB_DB_OPTION_LOCATION_CACHE_SIZE, FDB_DB_OPTION_MAX_WATCHES,
   FDB_DB_OPTION_MACHINE_ID, FDB_DB_OPTION_DATACENTER_ID,
   FDB_DB_OPTION_TRANSACTION_TIMEOUT, FDB_DB_OPTION_TRANSACTION_RETRY_LIMIT,
   FDB_DB_OPTION_TRANSACTION_MAX_RETRY_DELAY,
   FDB_DB_OPTION_SNAPSHOT_RYW_ENABLE, FDB_DB_OPTION_SNAPSHOT_RYW_DISABLE]

/- Numeric option codes, transcribed from `FDBTransactionOption`. -/

def FDB_TR_OPTION_CAUSAL_WRITE_RISKY : Int := 10
def FDB_TR_OPTION_CAUSAL_READ_RISKY : Int := 20
def FDB_TR_OPTION_CAUSAL_READ_DISABLE : Int := 21
def FDB_TR_OPTION_NEXT_WRITE_NO_WRITE_CONFLICT_RANGE : Int := 30
def FDB_TR_OPTION_READ_YOUR_WRITES_DISABLE : Int := 51
def FDB_TR_OPTION_READ_AHEAD_DISABLE : Int := 52
def FDB_TR_OPTION_DURABILITY_DATACENTER : Int := 110
def FDB_TR_OPTION_DURABILITY_RISKY : Int := 120
def FDB_TR_OPTION_DURABILITY_DEV_NULL_IS_WEB_SCALE : Int := 130
def FDB_TR_OPTION_PRIORITY_SYSTEM_IMMEDIATE : Int := 200
def FDB_TR_OPTION_PRIORITY_BATCH : Int := 201
def FDB_TR_OPTION_INITIALIZE_NEW_DATABASE : Int := 300
def FDB_TR_OPTION_ACCESS_SYSTEM_KEYS : Int := 301
def FDB_TR_OPTION_READ_SYSTEM_KEYS : Int := 302
def FDB_TR_OPTION_DEBUG_RETRY_LOGGING : Int := 401
def FDB_TR_OPTION_TRANSACTION_LOGGING_ENABLE : Int := 402
def FDB_TR_OPTION_DEBUG_TRANSACTION_IDENTIFIER : Int := 403
def FDB_TR_OPTION_LOG_TRANSACTION : Int := 404
def FDB_TR_OPTION_TIMEOUT : Int := 500
def FDB_TR_OPTION_RETRY_LIMIT : Int := 501
def FDB_TR_OPTION_MAX_RETRY_DELAY : Int := 502
def FDB_TR_OPTION_SNAPSHOT_RYW_ENABLE : Int := 600
def FDB_TR_OPTION_SNAPSHOT_RYW_DISABLE : Int := 601
def FDB_TR_OPTION_LOCK_AWARE : Int := 700
def FDB_TR_OPTION_USED_DURING_COMMIT_PROTECTION_DISABLE : Int := 701
def FDB_TR_OPTION_READ_LOCK_AWARE : Int := 702
def FDB_TR_OPTION_USE_PROVISIONAL_PROXIES : Int := 711

/-- All `FDBTransactionOption` codes, in declaration order. -/
def transactionOptionCodes : List Int :=
  [FDB_TR_OPTION_CAUSAL_WRITE_RISKY, FDB_TR_OPTION_CAUSAL_READ_RISKY,
   FDB_TR_OPTION_CAUSAL_READ_DISABLE,
   FDB_TR_OPTION_NEXT_WRITE_NO_WRITE_CONFLICT_RANGE,
   FDB_TR_OPTION_READ_YOUR_WRITES_DISABLE, FDB_TR_OPTION_READ_AHEAD_DISABLE,
   FDB_TR_OPTION_DURABILITY_DATACENTER, FDB_TR_OPTION_DURABILITY_RISKY,
   FDB_TR_OPTION_DURABILITY_DEV_NULL_IS_WEB_SCALE,
   FDB_TR_OPTION_PRIORITY_SYSTEM_IMMEDIATE, FDB_TR_OPTION_PRIORITY_BATCH,
   FDB_TR_OPTION_INITIALIZE_NEW_DATABASE, FDB_TR_OPTION_ACCESS_SYSTEM_KEYS,
   FDB_TR_OPTION_READ_SYSTEM_KEYS, FDB_TR_OPTION_DEBUG_RETRY_LOGGING,
   FDB_TR_OPTION_TRANSACTION_LOGGING_ENABLE,
   FDB_TR_OPTION_DEBUG_TRANSACTION_IDENTIFIER, FDB_TR_OPTION_LOG_TRANSACTION,
   FDB_TR_OPTION_TIMEOUT, FDB_TR_OPTION_RETRY_LIMIT,
   FDB_TR_OPTION_MAX_RETRY_DELAY, FDB_TR_OPTION_SNAPSHOT_RYW_ENABLE,
   FDB_TR_OPTION_SNAPSHOT_RYW_DISABLE, FDB_TR_OPTION_LOCK_AWARE,
   FDB_TR_OPTION_USED_DURING_COMMIT_PROTECTION_DISABLE,
   FDB_TR_OPTION_READ_LOCK_AWARE, FDB_TR_OPTION_USE_PROVISIONAL_PROXIES]

/- Numeric codes transcribed from `FDBStreamingMode`. -/

def FDB_STREAMING_MODE_WANT_ALL : Int := -2
def FDB_STREAMING_MODE_ITERATOR : Int := -1
def FDB_STREAMING_MODE_EXACT : Int := 0
def FDB_STREAMING_MODE_SMALL : Int := 1
def FDB_STREAMING_MODE_MEDIUM : Int := 2
def FDB_STREAMING_MODE_LARGE : Int := 3
def FDB_STREAMING_MODE_SERIAL : Int := 4

/-- All `FDBStreamingMode` codes, in declaration order. -/
def streamingModeCodes : List Int :=
  [FDB_STREAMING_MODE_WANT_ALL, FDB_STREAMING_MODE_ITERATOR,
   FDB_STREAMING_MODE_EXACT, FDB_STREAMING_MODE_SMALL,
   FDB_STREAMING_MODE_MEDIUM, FDB_STREAMING_MODE_LARGE,
   FDB_STREAMING_MODE_SERIAL]

/- Numeric codes transcribed from `FDBMutationType`.  `AND`/`OR`/`XOR`
are the deprecated aliases sharing the numeric codes of
`BIT_AND`/`BIT_OR`/`BIT_XOR`. -/

def FDB_MUTATION_TYPE_ADD : Int := 2
def FDB_MUTATION_TYPE_AND : Int := 6
def FDB_MUTATION_TYPE_BIT_AND : Int := 6
def FDB_MUTATION_TYPE_OR : Int := 7
def FDB_MUTATION_TYPE_BIT_OR : Int := 7
def FDB_MUTATION_TYPE_XOR : Int := 8
def FDB_MUTATION_TYPE_BIT_XOR : Int := 8
def FDB_MUTATION_TYPE_APPEND_IF_FITS : Int := 9
def FDB_MUTATION_TYPE_MAX : Int := 12
def FDB_MUTATION_TYPE_MIN : Int := 13
def FDB_MUTATION_TYPE_SET_VERSIONSTAMPED_KEY : Int := 14
def FDB_MUTATION_TYPE_SET_VERSIONSTAMPED_VALUE : Int := 15
def FDB_MUTATION_TYPE_BYTE_MIN : Int := 16
def FDB_MUTATION_TYPE_BYTE_MAX : Int := 17
def FDB_MUTATION_TYPE_COMPARE_AND_CLEAR : Int := 20

/-- All `FDBMutationType` codes, in declaration order (aliases included). -/
def mutationTypeCodes : List Int :=
  [FDB_MUTATION_TYPE_ADD, FDB_MUTATION_TYPE_AND, FDB_MUTATION_TYPE_BIT_AND,
   FDB_MUTATION_TYPE_OR, FDB_MUTATION_TYPE_BIT_OR, FDB_MUTATION_TYPE_XOR,
   FDB_MUTATION_TYPE_BIT_XOR, FDB_MUTATION_TYPE_APPEND_IF_FITS,
   FDB_MUTATION_TYPE_MAX, FDB_MUTATION_TYPE_MIN,
   FDB_MUTATION_TYPE_SET_VERSIONSTAMPED_KEY,
   FDB_MUTATION_TYPE_SET_VERSIONSTAMPED_VALUE, FDB_MUTATION_TYPE_BYTE_MIN,
   FDB_MUTATION_TYPE_BYTE_MAX, FDB_MUTATION_TYPE_COMPARE_AND_CLEAR]

/- Numeric codes transcribed from `FDBConflictRangeType`. -/

def FDB_CONFLICT_RANGE_TYPE_READ : Int := 0
def FDB_CONFLICT_RANGE_TYPE_WRITE : Int := 1

/-- All `FDBConflictRangeType` codes, in declaration order. -/
def conflictRangeTypeCodes : List Int :=
  [FDB_CONFLICT_RANGE_TYPE_READ, FDB_CONFLICT_RANGE_TYPE_WRITE]

/- Numeric codes transcribed from `FDBErrorPredicate`. -/

def FDB_ERROR_PREDICATE_RETRYABLE : Int := 50000
def FDB_ERROR_PREDICATE_MAYBE_COMMITTED : Int := 50001
def FDB_ERROR_PREDICATE_RETRYABLE_NOT_COMMITTED : Int := 50002

/-- All `FDBErrorPredicate` codes, in declaration order. -/
def errorPredicateCodes : List Int :=
  [FDB_ERROR_PREDICATE_RETRYABLE, FDB_ERROR_PREDICATE_MAYBE_COMMITTED,
   FDB_ERROR_PREDICATE_RETRYABLE_NOT_COMMITTED]

/-- The canonical mutation operations of `FDBMutationType` (the deprecated
`And`/`Or`/`Xor` aliases share the numeric codes of `BitAnd`/`BitOr`/`BitXor`
and are decoded to the same canonical operation). -/
inductive MutationType where
  | Add
  | BitAnd
  | BitOr
  | BitXor
  | AppendIfFits
  | Max
  | Min
  | SetVersionstampedKey
  | SetVersionstampedValue
  | ByteMin
  | ByteMax
  | CompareAndClear
deriving DecidableEq, Repr

/-- Modelled from the spec: the boundary translation step mapping numeric
mutation codes (legacy aliases included) onto the canonical operation; the
decoding table follows the `FDBMutationType` enumeration values. -/
def codeToMutationType (c : Int) : Option MutationType :=
  if c = FDB_MUTATION_TYPE_ADD then some .Add
  else if c = FDB_MUTATION_TYPE_BIT_AND then some .BitAnd
  else if c = FDB_MUTATION_TYPE_BIT_OR then some .BitOr
  else if c = FDB_MUTATION_TYPE_BIT_XOR then some .BitXor
  else if c = FDB_MUTATION_TYPE_APPEND_IF_FITS then some .AppendIfFits
  else if c = FDB_MUTATION_TYPE_MAX then some .Max
  else if c = FDB_MUTATION_TYPE_MIN then some .Min
  else if c = FDB_MUTATION_TYPE_SET_VERSIONSTAMPED_KEY then
    some .SetVersionstampedKey
  else if c = FDB_MUTATION_TYPE_SET_VERSIONSTAMPED_VALUE then
    some .SetVersionstampedValue
  else if c = FDB_MUTATION_TYPE_BYTE_MIN then some .ByteMin
  else if c = FDB_MUTATION_TYPE_BYTE_MAX then some .ByteMax
  else if c = FDB_MUTATION_TYPE_COMPARE_AND_CLEAR then some .CompareAndClear
  else none

/-- Mutation-apply-time errors of the engine (spec §7 taxonomy). -/
inductive MutErr where
  | InvalidMutationType
  | MalformedParameter
  | ValueTooLarge
deriving DecidableEq, Repr

/-- Little-endian value of a byte string (first byte least significant). -/
def leVal : Bytes → Nat
  | [] => 0
  | b :: bs => b + 256 * leVal bs

/-- Little-endian encoding of `v` into exactly `n` bytes (truncating
modulo `2 ^ (8 * n)`). -/
def leBytes : Nat → Nat → Bytes
  | 0, _ => []
  | n + 1, v => v % 256 :: leBytes n (v / 256)

/-- Big-endian encoding of `v` into exactly `n` bytes. -/
def beBytes (n v : Nat) : Bytes := (leBytes n v).reverse

/-- Truncate or zero-extend a byte string to exactly `n` bytes (extension
appends trailing zero bytes, truncation drops the trailing bytes). -/
def zeroPad (bs : Bytes) (n : Nat) : Bytes :=
  bs.take n ++ List.replicate (n - bs.length) 0

/-- Modelled from the spec: the length-reconciliation rule shared by
Add, BitOr, BitXor, Max (spec §4.1): a missing existing value is treated
as empty, a shorter one is zero-extended to `param`'s length and a longer
one is truncated to it. -/
def reconcile (existing : Option Bytes) (param : Bytes) : Bytes :=
  zeroPad (existing.getD []) param.length

/-- Byte-wise little-endian addition with carry propagation of two
equal-length byte strings (the extra `Nat` is the incoming carry). -/
def leAdd : Bytes → Bytes → Nat → Bytes
  | [], _, _ => []
  | _ :: _, [], _ => []
  | a :: as, b :: bs, c => (a + b + c) % 256 :: leAdd as bs ((a + b + c) / 256)

/-- Strict lexicographic byte-order comparison of raw byte strings (a
proper prefix is smaller). -/
def lexLt : Bytes → Bytes → Bool
  | [], [] => false
  | [], _ :: _ => true
  | _ :: _, [] => false
  | a :: as, b :: bs =>
    if a < b then true else if b < a then false else lexLt as bs

/-- A 10-byte versionstamp: the 8-byte big-endian committed version
followed by the 2-byte big-endian transaction batch order. -/
def versionstamp (version order : Nat) : Bytes :=
  beBytes 8 version ++ beBytes 2 order

/-- Replace the 10 bytes of `payload` starting at `pos` by `vs`. -/
def substituteVersionstamp (vs payload : Bytes) (pos : Nat) : Bytes :=
  payload.take pos ++ vs ++ payload.drop (pos + 10)

/-- Modelled from the spec: offset-carrying versionstamp transformation
(spec §4.1 and the `FDBMutationType` comments).  The final `tailLen`
bytes of `param` are removed and read as a little-endian position `pos`;
the 10 bytes of the remaining payload from `pos` are overwritten by the
versionstamp.  Fails with `MalformedParameter` when `param` has fewer
than `tailLen` bytes or `pos + 10` overruns the payload. -/
def applyVersionstamp (vs : Bytes) (tailLen : Nat) (param : Bytes) :
    Except MutErr Bytes :=
  if param.length < tailLen then .error .MalformedParameter
  else
    let payload := param.take (param.length - tailLen)
    let pos := leVal (param.drop (param.length - tailLen))
    if pos + 10 ≤ payload.length then
      .ok (substituteVersionstamp vs payload pos)
    else .error .MalformedParameter

/-- Context of one mutation application: the transaction's committed
version and batch order (for versionstamps), the configured maximum value
size (for AppendIfFits) and the negotiated API version (for the pre-520
versionstamp offset behaviour). -/
structure MutCtx where
  committedVersion : Nat
  txOrder : Nat
  maxValueSize : Nat
  apiVersion : Nat
deriving DecidableEq, Repr

/-- The 10-byte versionstamp of the context's transaction. -/
def MutCtx.vs (ctx : MutCtx) : Bytes :=
  versionstamp ctx.committedVersion ctx.txOrder

/-- Modelled from the spec: the little-endian Max combination after
length reconciliation (ties keep `param`; on equal values the reconciled
buffers hold the same bytes). -/
def maxLE (existing : Option Bytes) (param : Bytes) : Bytes :=
  if leVal (reconcile existing param) ≤ leVal param then param
  else reconcile existing param

/-- Modelled from the spec and the source `MIN` comment: the little-endian
Min combination of a *present* existing value after length reconciliation. -/
def minLE (e param : Bytes) : Bytes :=
  if leVal param ≤ leVal (zeroPad e param.length) then param
  else zeroPad e param.length

/-- Modelled from the spec: the MutationEngine `apply` function, whose
implementation is not part of this repository — `src/include/610/fdb_c_options.g.h`
only declares the `FDBMutationType` codes.  Byte-level behaviour follows
the documentation comment of each enumerator (length reconciliation,
the `BIT_AND`/`MIN` absent-value special cases, the pre-520 versionstamp
offset rules) and spec §4.1 for the error taxonomy (`MalformedParameter`,
and the locally-signalled `ValueTooLarge` of AppendIfFits).  A `none`
result is a cleared/absent value. -/
def MutationEngine.apply (ctx : MutCtx) (existing : Option Bytes)
    (op : MutationType) (param : Bytes) : Except MutErr (Option Bytes) :=
  match op with
  | .Add => .ok (some (leAdd (reconcile existing param) param 0))
  | .BitAnd =>
    match existing with
    | none => .ok (some param)
    | some e => .ok (some (List.zipWith Nat.land (zeroPad e param.length) param))
  | .BitOr => .ok (some (List.zipWith Nat.lor (reconcile existing param) param))
  | .BitXor => .ok (some (List.zipWith Nat.xor (reconcile existing param) param))
  | .AppendIfFits =>
    match existing with
    | none => .ok (some param)
    | some e =>
      if e.length + param.length ≤ ctx.maxValueSize then .ok (some (e ++ param))
      else .error .ValueTooLarge
  | .Max => .ok (some (maxLE existing param))
  | .Min =>
    match existing with
    | none => .ok (some param)
    | some e => .ok (some (minLE e param))
  | .SetVersionstampedKey =>
    if 520 ≤ ctx.apiVersion then (applyVersionstamp ctx.vs 4 param).map some
    else (applyVersionstamp ctx.vs 2 param).map some
  | .SetVersionstampedValue =>
    if 520 ≤ ctx.apiVersion then (applyVersionstamp ctx.vs 4 param).map some
    else if 10 ≤ param.length then .ok (some (ctx.vs ++ param.drop 10))
    else .error .MalformedParameter
  | .ByteMin =>
    match existing with
    | none => .ok (some param)
    | some e => .ok (some (if lexLt param e then param else e))
  | .ByteMax =>
    match existing with
    | none => .ok (some param)
    | some e => .ok (some (if lexLt e param then param else e))
  | .CompareAndClear =>
    match existing with
    | none => .ok none
    | some e => if e = param then .ok none else .ok (some e)

/-- Configuration-time errors of the option registry (spec §7 taxonomy). -/
inductive OptErr where
  | UnknownOption
  | TypeMismatch
  | OutOfRange
  | OptionLateBinding
deriving DecidableEq, Repr

/-- States of the Network-scope legality-window state machine
(spec §4.2): unconfigured, configuring (options may be set), started
(the network is up; "before network start" options are now illegal). -/
inductive NetState where
  | Unconfigured
  | Configuring
  | Started
deriving DecidableEq, Repr

/-- The network option codes whose source comment says "Must be set
before setting up the network" (codes 60–63). -/
def beforeNetworkStartOptions : List Int :=
  [FDB_NET_OPTION_DISABLE_MULTI_VERSION_CLIENT_API,
   FDB_NET_OPTION_CALLBACKS_ON_EXTERNAL_THREADS,
   FDB_NET_OPTION_EXTERNAL_CLIENT_LIBRARY,
   FDB_NET_OPTION_EXTERNAL_CLIENT_DIRECTORY]

/-- Modelled from the spec: setting a Network-scope option, whose
registry implementation is not part of this repository.  An unknown code
fails with `UnknownOption`; a "before network start" option attempted
after startup fails with `OptionLateBinding`; otherwise setting an
option in the pre-start states moves the machine to `Configuring`. -/
def setNetOption (s : NetState) (c : Int) : Except OptErr NetState :=
  if c ∈ networkOptionCodes then
    match s with
    | .Started =>
      if c ∈ beforeNetworkStartOptions then .error .OptionLateBinding
      else .ok .Started
    | _ => .ok .Configuring
  else .error .UnknownOption

/-- Modelled from the spec: the one-way `Configuring -> Started`
transition ("setup network"); calling it when already `Started` is an
idempotent no-op. -/
def setupNetwork : NetState → NetState := fun _ => .Started

/-- Events of the Network-scope state machine. -/
inductive NetEvent where
  | setOption (c : Int)
  | setup
deriving DecidableEq, Repr

/-- One step of the Network-scope state machine; a failed option call
leaves the state unchanged. -/
def netStep (s : NetState) (ev : NetEvent) : NetState :=
  match ev with
  | .setOption c =>
    match setNetOption s c with
    | .ok t => t
    | .error _ => s
  | .setup => setupNetwork s

/-- Run a sequence of events from a starting state. -/
def netRun (s : NetState) (evs : List NetEvent) : NetState :=
  evs.foldl netStep s

/-- The declared default of the `max_watches` Database option (source
comment: "Defaults to 10000"). -/
def maxWatchesDefault : Int := 10000

/-- Modelled from the spec: validation of the Database-scope
`max_watches` option (code 20), whose implementation is not part of this
repository; the source comment documents "cannot be larger than
1000000", so any larger parameter fails with `OutOfRange`. -/
def validateMaxWatches (n : Int) : Except OptErr Int :=
  if n ≤ 1000000 then .ok n else .error .OutOfRange

/-! ## Helper lemmas -/

theorem leBytes_length (n v : Nat) : (leBytes n v).length = n := by
  induction n generalizing v with
  | zero => rfl
  | succ n ih => simp [leBytes, ih]

theorem versionstamp_length (v o : Nat) : (versionstamp v o).length = 10 := by
  simp [versionstamp, beBytes, leBytes_length]

theorem zeroPad_length (bs : Bytes) (n : Nat) : (zeroPad bs n).length = n := by
  simp [zeroPad]
  omega

theorem reconcile_length (existing : Option Bytes) (param : Bytes) :
    (reconcile existing param).length = param.length := by
  simp [reconcile, zeroPad_length]

theorem leAdd_length (as bs : Bytes) (c : Nat) (h : as.length = bs.length) :
    (leAdd as bs c).length = as.length := by
  induction as generalizing bs c with
  | nil => simp [leAdd]
  | cons a as ih =>
    cases bs with
    | nil => simp at h
    | cons b bs =>
      simp [leAdd]
      exact ih bs _ (by simpa using h)

theorem mod_byte_split (s y M : Nat) (hM : 0 < M) :
    (s + 256 * y) % (256 * M) = s % 256 + 256 * ((y + s / 256) % M) := by
  have hsplit : s + 256 * y = s % 256 + 256 * (y + s / 256) := by omega
  rw [hsplit, Nat.add_mod, Nat.mul_mod_mul_left]
  have ha : s % 256 < 256 := Nat.mod_lt _ (by norm_num)
  have h2 : s % 256 % (256 * M) = s % 256 := by
    apply Nat.mod_eq_of_lt
    have hb : 256 ≤ 256 * M := by
      have := Nat.mul_le_mul_left 256 hM
      simpa using this
    omega
  rw [h2]
  apply Nat.mod_eq_of_lt
  have hb : (y + s / 256) % M < M := Nat.mod_lt _ hM
  generalize (y + s / 256) % M = m at hb ⊢
  omega

theorem leAdd_leVal (as : Bytes) : ∀ (bs : Bytes) (c : Nat),
    as.length = bs.length →
    leVal (leAdd as bs c) = (leVal as + leVal bs + c) % 2 ^ (8 * as.length) := by
  induction as with
  | nil =>
    intro bs c h
    cases bs with
    | nil => simp [leAdd, leVal, Nat.mod_one]
    | cons b bs => simp at h
  | cons a as ih =>
    intro bs c h
    cases bs with
    | nil => simp at h
    | cons b bs =>
      have hlen : as.length = bs.length := by simpa using h
      have hM : 0 < 2 ^ (8 * as.length) := pow_pos (by norm_num) _
      have hpow : 2 ^ (8 * (a :: as).length) = 256 * 2 ^ (8 * as.length) := by
        have h1 : 8 * (a :: as).length = 8 * as.length + 8 := by
          simp [List.length_cons]
          ring
        rw [h1, pow_add]
        norm_num [mul_comm]
      have hstep : leAdd (a :: as) (b :: bs) c
          = (a + b + c) % 256 :: leAdd as bs ((a + b + c) / 256) := rfl
      rw [hstep]
      have hval : leVal ((a + b + c) % 256 :: leAdd as bs ((a + b + c) / 256))
          = (a + b + c) % 256 + 256 * leVal (leAdd as bs ((a + b + c) / 256)) := rfl
      rw [hval, ih bs ((a + b + c) / 256) hlen, hpow]
      have hva : leVal (a :: as) = a + 256 * leVal as := rfl
      have hvb : leVal (b :: bs) = b + 256 * leVal bs := rfl
      rw [hva, hvb]
      have hre : a + 256 * leVal as + (b + 256 * leVal bs) + c
          = (a + b + c) + 256 * (leVal as + leVal bs) := by ring
      rw [hre, mod_byte_split _ _ _ hM]

theorem lexLt_irrefl (as : Bytes) : lexLt as as = false := by
  induction as with
  | nil => rfl
  | cons a as ih => simp [lexLt, ih]

theorem lexLt_asymm (as : Bytes) : ∀ bs : Bytes,
    lexLt as bs = true → lexLt bs as = false := by
  induction as with
  | nil =>
    intro bs h
    cases bs with
    | nil => simp [lexLt] at h
    | cons b bs => simp [lexLt]
  | cons a as ih =>
    intro bs h
    cases bs with
    | nil => simp [lexLt] at h
    | cons b bs =>
      simp only [lexLt] at h ⊢
      by_cases hab : a < b
      · simp [hab, Nat.lt_asymm hab]
      · simp only [hab, if_false] at h
        by_cases hba : b < a
        · simp [hba] at h
        · simp only [hba, if_false] at h
          simp [hab, hba, ih bs h]

theorem substituteVersionstamp_length (vs payload : Bytes) (pos : Nat)
    (hvs : vs.length = 10) (h : pos + 10 ≤ payload.length) :
    (substituteVersionstamp vs payload pos).length = payload.length := by
  simp [substituteVersionstamp, hvs]
  omega

theorem applyVersionstamp_append (vs payload posBytes : Bytes) (t : Nat)
    (hlen : posBytes.length = t)
    (hpos : leVal posBytes + 10 ≤ payload.length) :
    applyVersionstamp vs t (payload ++ posBytes)
      = .ok (substituteVersionstamp vs payload (leVal posBytes)) := by
  have hlen2 : (payload ++ posBytes).length = payload.length + t := by
    simp [List.length_append, hlen]
  have hsub : (payload ++ posBytes).length - t = payload.length := by omega
  have htake : (payload ++ posBytes).take ((payload ++ posBytes).length - t)
      = payload := by
    rw [hsub]
    exact List.take_left payload posBytes
  have hdrop : (payload ++ posBytes).drop ((payload ++ posBytes).length - t)
      = posBytes := by
    rw [hsub]
    exact List.drop_left payload posBytes
  have hnotshort : ¬ (payload ++ posBytes).length < t := by omega
  simp only [applyVersionstamp, hnotshort, if_false, htake, hdrop]
  rw [if_pos hpos]

theorem applyVersionstamp_short (vs param : Bytes) (t : Nat)
    (h : param.length < t) :
    applyVersionstamp vs t param = .error .MalformedParameter := by
  simp [applyVersionstamp, h]

theorem applyVersionstamp_oob (vs param : Bytes) (t : Nat)
    (ht : t ≤ param.length)
    (h : param.length < leVal (param.drop (param.length - t)) + 10 + t) :
    applyVersionstamp vs t param = .error .MalformedParameter := by
  have hnotshort : ¬ param.length < t := by omega
  have htl : (param.take (param.length - t)).length = param.length - t := by
    rw [List.length_take]
    omega
  have hb : ¬ (leVal (param.drop (param.length - t)) + 10
      ≤ (param.take (param.length - t)).length) := by
    rw [htl]
    omega
  simp only [applyVersionstamp, hnotshort, if_false]
  rw [if_neg hb]

theorem netStep_started (ev : NetEvent) : netStep .Started ev = .Started := by
  cases ev with
  | setup => rfl
  | setOption c =>
    simp only [netStep, setNetOption]
    by_cases h1 : c ∈ networkOptionCodes
    · simp only [h1, if_true]
      by_cases h2 : c ∈ beforeNetworkStartOptions
      · simp [h2]
      · simp [h2]
    · simp [h1]

theorem netRun_started (evs : List NetEvent) : netRun .Started evs = .Started := by
  induction evs with
  | nil => rfl
  | cons ev evs ih =>
    simp only [netRun, List.foldl_cons, netStep_started]
    exact ih

theorem beforeStart_sub_network (c : Int) (h : c ∈ beforeNetworkStartOptions) :
    c ∈ networkOptionCodes := by
  have hall : ∀ x ∈ beforeNetworkStartOptions, x ∈ networkOptionCodes := by
    decide
  exact hall c h

/-- A sample mutation context: committed version 1, order 2, maximum
value size 1000, API version 610. -/
def ctx0 : MutCtx := ⟨1, 2, 1000, 610⟩

/-- A mutation context with maximum value size 3 (for the AppendIfFits
scenario). -/
def ctx3 : MutCtx := ⟨0, 0, 3, 610⟩

/-- A mutation context with a large maximum value size. -/
def ctxBig : MutCtx := ⟨0, 0, 100, 610⟩

/-- A mutation context negotiated at API version 510 (below 520). -/
def ctx1 : MutCtx := ⟨1, 2, 1000, 510⟩

/-! ## Claim theorems -/

/-- C6: the catalog's numeric codes match the interoperability contract:
network option codes lie in 10–71, database option codes use the legacy
band 10–27 plus 500–502 (numerically equal to transaction options
500–502, kept in a separate scope list), transaction option codes lie in
10–711, streaming-mode codes are exactly -2 through 4, mutation-type
codes lie in 2–20 with the deprecated aliases And/Or/Xor numerically
equal to BitAnd/BitOr/BitXor, conflict-range codes are 0 and 1, and
error-predicate codes are 50000–50002. -/
theorem catalog_codes_contract :
    (networkOptionCodes.all fun c => decide (10 ≤ c) && decide (c ≤ 71)) = true
  ∧ (databaseOptionCodes.all fun c =>
      (decide (10 ≤ c) && decide (c ≤ 27))
        || (decide (500 ≤ c) && decide (c ≤ 502))) = true
  ∧ ([FDB_DB_OPTION_TRANSACTION_TIMEOUT, FDB_DB_OPTION_TRANSACTION_RETRY_LIMIT,
      FDB_DB_OPTION_TRANSACTION_MAX_RETRY_DELAY].all
      fun c => decide (c ∈ transactionOptionCodes)) = true
  ∧ FDB_DB_OPTION_TRANSACTION_TIMEOUT = FDB_TR_OPTION_TIMEOUT
  ∧ FDB_DB_OPTION_TRANSACTION_RETRY_LIMIT = FDB_TR_OPTION_RETRY_LIMIT
  ∧ FDB_DB_OPTION_TRANSACTION_MAX_RETRY_DELAY = FDB_TR_OPTION_MAX_RETRY_DELAY
  ∧ (transactionOptionCodes.all fun c => decide (10 ≤ c) && decide (c ≤ 711)) = true
  ∧ streamingModeCodes = [-2, -1, 0, 1, 2, 3, 4]
  ∧ (mutationTypeCodes.all fun c => decide (2 ≤ c) && decide (c ≤ 20)) = true
  ∧ FDB_MUTATION_TYPE_AND = FDB_MUTATION_TYPE_BIT_AND
  ∧ FDB_MUTATION_TYPE_OR = FDB_MUTATION_TYPE_BIT_OR
  ∧ FDB_MUTATION_TYPE_XOR = FDB_MUTATION_TYPE_BIT_XOR
  ∧ conflictRangeTypeCodes = [0, 1]
  ∧ errorPredicateCodes = [50000, 50001, 50002] := by
  decide

/-- C4: `apply existing Add param` always succeeds with a buffer of
length exactly `param.length` whose little-endian value is the sum of
the reconciled existing value and `param` modulo `2 ^ (8 * param.length)`;
overflow is silently truncated, never an error. -/
theorem add_little_endian_mod (ctx : MutCtx) (existing : Option Bytes)
    (param : Bytes) :
    MutationEngine.apply ctx existing .Add param
      = .ok (some (leAdd (reconcile existing param) param 0))
  ∧ (leAdd (reconcile existing param) param 0).length = param.length
  ∧ leVal (leAdd (reconcile existing param) param 0)
      = (leVal (reconcile existing param) + leVal param)
          % 2 ^ (8 * param.length) := by
  refine ⟨rfl, ?_, ?_⟩
  · rw [leAdd_length _ _ _ (by rw [reconcile_length]), reconcile_length]
  · have h := leAdd_leVal (reconcile existing param) param 0
      (by rw [reconcile_length])
    rw [h, reconcile_length]
    norm_num

/-- C3: AppendIfFits returns `param` when the existing value is absent,
returns `existing ++ param` exactly when the combined length fits the
configured maximum value size, and fails with `ValueTooLarge` (a local,
immediate failure) exactly when it does not; with maximum value size 3
the spec's scenario appends "ab" then fails appending "cd". -/
theorem appendIfFits_behaviour (ctx : MutCtx) (e param : Bytes) :
    MutationEngine.apply ctx none .AppendIfFits param = .ok (some param)
  ∧ (MutationEngine.apply ctx (some e) .AppendIfFits param
      = .ok (some (e ++ param)) ↔ e.length + param.length ≤ ctx.maxValueSize)
  ∧ (MutationEngine.apply ctx (some e) .AppendIfFits param
      = .error .ValueTooLarge ↔ ctx.maxValueSize < e.length + param.length)
  ∧ MutationEngine.apply ctx3 none .AppendIfFits [97, 98] = .ok (some [97, 98])
  ∧ MutationEngine.apply ctx3 (some [97, 98]) .AppendIfFits [99, 100]
      = .error .ValueTooLarge
  ∧ MutationEngine.apply ctxBig (some [97, 98]) .AppendIfFits [99, 100]
      = .ok (some [97, 98, 99, 100]) := by
  refine ⟨rfl, ?_, ?_, rfl, rfl, rfl⟩
  · by_cases h : e.length + param.length ≤ ctx.maxValueSize
    · simp [MutationEngine.apply, h]
    · simp [MutationEngine.apply, h]
  · by_cases h : e.length + param.length ≤ ctx.maxValueSize
    · simp [MutationEngine.apply, h]
    · simp [MutationEngine.apply, h]
      omega

/-- C2 counterexample: at `existing = none`, `param = [1]`, the engine's
Min stores `param` itself (source comment: "If the existing value in the
database is not present, then param is stored"), whereas the claimed
reconciliation rule would store the reconciled all-zero buffer `[0]`,
which is strictly smaller as a little-endian number. -/
theorem min_absent_counterexample :
    MutationEngine.apply ctx0 none .Min [1] = .ok (some [1])
  ∧ reconcile none [1] = [0]
  ∧ leVal [0] < leVal [1]
  ∧ ([1] : Bytes) ≠ [0] := by
  refine ⟨rfl, rfl, by decide, by decide⟩

/-- C2 (amended): Max always performs the length reconciliation and
stores the little-endian greater value; Min does so for a *present*
existing value; when existing is absent Min stores `param` as-is; the
spec's 0x0100/0x0200 scenarios hold. -/
theorem max_min_reconciled (ctx : MutCtx) (existing : Option Bytes)
    (e param : Bytes) :
    MutationEngine.apply ctx existing .Max param = .ok (some (maxLE existing param))
  ∧ leVal (maxLE existing param)
      = Nat.max (leVal (reconcile existing param)) (leVal param)
  ∧ (maxLE existing param = reconcile existing param ∨ maxLE existing param = param)
  ∧ (maxLE existing param).length = param.length
  ∧ MutationEngine.apply ctx (some e) .Min param = .ok (some (minLE e param))
  ∧ leVal (minLE e param)
      = Nat.min (leVal (zeroPad e param.length)) (leVal param)
  ∧ (minLE e param = zeroPad e param.length ∨ minLE e param = param)
  ∧ (minLE e param).length = param.length
  ∧ MutationEngine.apply ctx none .Min param = .ok (some param)
  ∧ MutationEngine.apply ctx (some [0, 1]) .Max [0, 2] = .ok (some [0, 2])
  ∧ MutationEngine.apply ctx (some [0, 1]) .Min [0, 2] = .ok (some [0, 1]) := by
  refine ⟨rfl, ?_, ?_, ?_, rfl, ?_, ?_, ?_, rfl, rfl, rfl⟩
  · simp only [maxLE]
    split_ifs with h
    · exact (Nat.max_eq_right h).symm
    · exact (Nat.max_eq_left (le_of_lt (not_le.mp h))).symm
  · simp only [maxLE]
    split_ifs with h
    · exact Or.inr rfl
    · exact Or.inl rfl
  · simp only [maxLE]
    split_ifs with h
    · rfl
    · exact reconcile_length existing param
  · simp only [minLE]
    split_ifs with h
    · exact (Nat.min_eq_right h).symm
    · exact (Nat.min_eq_left (le_of_lt (not_le.mp h))).symm
  · simp only [minLE]
    split_ifs with h
    · exact Or.inr rfl
    · exact Or.inl rfl
  · simp only [minLE]
    split_ifs with h
    · rfl
    · exact zeroPad_length e param.length

/-- C5: BitAnd, BitOr and BitXor apply their bitwise operation
byte-by-byte after length reconciliation, with output length always
`param.length`; the one exception is BitAnd on an absent existing value,
which stores `param` as-is; the deprecated alias codes And/Or/Xor decode
to the same canonical operations. -/
theorem bitwise_ops (ctx : MutCtx) (existing : Option Bytes) (e param : Bytes) :
    MutationEngine.apply ctx (some e) .BitAnd param
      = .ok (some (List.zipWith Nat.land (zeroPad e param.length) param))
  ∧ MutationEngine.apply ctx existing .BitOr param
      = .ok (some (List.zipWith Nat.lor (reconcile existing param) param))
  ∧ MutationEngine.apply ctx existing .BitXor param
      = .ok (some (List.zipWith Nat.xor (reconcile existing param) param))
  ∧ MutationEngine.apply ctx none .BitAnd param = .ok (some param)
  ∧ (List.zipWith Nat.land (zeroPad e param.length) param).length = param.length
  ∧ (List.zipWith Nat.lor (reconcile existing param) param).length = param.length
  ∧ (List.zipWith Nat.xor (reconcile existing param) param).length = param.length
  ∧ codeToMutationType FDB_MUTATION_TYPE_AND = some .BitAnd
  ∧ codeToMutationType FDB_MUTATION_TYPE_OR = some .BitOr
  ∧ codeToMutationType FDB_MUTATION_TYPE_XOR = some .BitXor := by
  refine ⟨rfl, rfl, rfl, rfl, ?_, ?_, ?_, rfl, rfl, rfl⟩
  · rw [List.length_zipWith, zeroPad_length, Nat.min_self]
  · rw [List.length_zipWith, reconcile_length, Nat.min_self]
  · rw [List.length_zipWith, reconcile_length, Nat.min_self]

/-- C8: ByteMax and ByteMin store `param` unconditionally when the
existing value is absent; on a present existing value they store the
raw-lexicographically larger (resp. smaller) of the two byte strings —
the result is always one of the two operands (no zero-extension), and is
not lexicographically below (resp. above) either operand. -/
theorem byte_min_max (ctx : MutCtx) (e param : Bytes) :
    MutationEngine.apply ctx none .ByteMax param = .ok (some param)
  ∧ MutationEngine.apply ctx none .ByteMin param = .ok (some param)
  ∧ MutationEngine.apply ctx (some e) .ByteMax param
      = .ok (some (if lexLt e param then param else e))
  ∧ MutationEngine.apply ctx (some e) .ByteMin param
      = .ok (some (if lexLt param e then param else e))
  ∧ ((if lexLt e param then param else e) = e
      ∨ (if lexLt e param then param else e) = param)
  ∧ lexLt (if lexLt e param then param else e) e = false
  ∧ lexLt (if lexLt e param then param else e) param = false
  ∧ ((if lexLt param e then param else e) = e
      ∨ (if lexLt param e then param else e) = param)
  ∧ lexLt e (if lexLt param e then param else e) = false
  ∧ lexLt param (if lexLt param e then param else e) = false := by
  refine ⟨rfl, rfl, rfl, rfl, ?_, ?_, ?_, ?_, ?_, ?_⟩
  · by_cases h : lexLt e param = true
    · simp [h]
    · simp [h]
  · by_cases h : lexLt e param = true
    · simp [h, lexLt_asymm _ _ h]
    · simp [h, lexLt_irrefl]
  · by_cases h : lexLt e param = true
    · simp [h, lexLt_irrefl]
    · simp only [h, if_false]
      exact Bool.eq_false_iff.mpr h
  · by_cases h : lexLt param e = true
    · simp [h]
    · simp [h]
  · by_cases h : lexLt param e = true
    · simp [h, lexLt_asymm _ _ h]
    · simp [h, lexLt_irrefl]
  · by_cases h : lexLt param e = true
    · simp [h, lexLt_irrefl]
    · simp only [h, if_false]
      exact Bool.eq_false_iff.mpr h

/-- C1: for `param = payload ++ posBytes` with a 4-byte little-endian
offset whose value `pos` satisfies `pos + 10 ≤ payload.length`, both
versionstamp operations (at API version 520+) return `payload` with
bytes `[pos, pos+10)` replaced by the 8-byte big-endian committed
version followed by the 2-byte big-endian transaction order, preserving
`payload.length`; and they fail with `MalformedParameter` whenever
`param` is shorter than 4 bytes or `pos + 10` overruns the payload. -/
theorem versionstamp_substitution (ctx : MutCtx) (existing : Option Bytes)
    (payload posBytes : Bytes)
    (hapi : 520 ≤ ctx.apiVersion)
    (hlen : posBytes.length = 4)
    (hpos : leVal posBytes + 10 ≤ payload.length) :
    MutationEngine.apply ctx existing .SetVersionstampedKey (payload ++ posBytes)
      = .ok (some (payload.take (leVal posBytes)
          ++ (beBytes 8 ctx.committedVersion ++ beBytes 2 ctx.txOrder)
          ++ payload.drop (leVal posBytes + 10)))
  ∧ MutationEngine.apply ctx existing .SetVersionstampedValue (payload ++ posBytes)
      = .ok (some (payload.take (leVal posBytes)
          ++ (beBytes 8 ctx.committedVersion ++ beBytes 2 ctx.txOrder)
          ++ payload.drop (leVal posBytes + 10)))
  ∧ (payload.take (leVal posBytes)
      ++ (beBytes 8 ctx.committedVersion ++ beBytes 2 ctx.txOrder)
      ++ payload.drop (leVal posBytes + 10)).length = payload.length
  ∧ (∀ param : Bytes, param.length < 4 →
      MutationEngine.apply ctx existing .SetVersionstampedKey param
          = .error .MalformedParameter
      ∧ MutationEngine.apply ctx existing .SetVersionstampedValue param
          = .error .MalformedParameter)
  ∧ (∀ param : Bytes, 4 ≤ param.length →
      param.length < leVal (param.drop (param.length - 4)) + 10 + 4 →
      MutationEngine.apply ctx existing .SetVersionstampedKey param
          = .error .MalformedParameter
      ∧ MutationEngine.apply ctx existing .SetVersionstampedValue param
          = .error .MalformedParameter) := by
  have happ := applyVersionstamp_append ctx.vs payload posBytes 4 hlen hpos
  refine ⟨?_, ?_, ?_, ?_, ?_⟩
  · simp only [MutationEngine.apply, if_pos hapi, happ, Except.map]
    rfl
  · simp only [MutationEngine.apply, if_pos hapi, happ, Except.map]
    rfl
  · exact substituteVersionstamp_length ctx.vs payload (leVal posBytes)
      (versionstamp_length _ _) hpos
  · intro param hshort
    have herr := applyVersionstamp_short ctx.vs param 4 hshort
    constructor <;> simp only [MutationEngine.apply, if_pos hapi, herr, Except.map]
  · intro param h4 hoob
    have herr := applyVersionstamp_oob ctx.vs param 4 h4 (by omega)
    constructor <;> simp only [MutationEngine.apply, if_pos hapi, herr, Except.map]

/-- Witness for C1: a 10-byte payload with offset 0 at API version 610. -/
theorem versionstamp_substitution_witness :
    520 ≤ ctx0.apiVersion
  ∧ ([0, 0, 0, 0] : Bytes).length = 4
  ∧ leVal [0, 0, 0, 0] + 10 ≤ ([1, 2, 3, 4, 5, 6, 7, 8, 9, 10] : Bytes).length
  ∧ MutationEngine.apply ctx0 none .SetVersionstampedKey
      ([1, 2, 3, 4, 5, 6, 7, 8, 9, 10] ++ [0, 0, 0, 0])
      = .ok (some (([1, 2, 3, 4, 5, 6, 7, 8, 9, 10] : Bytes).take (leVal [0, 0, 0, 0])
          ++ (beBytes 8 ctx0.committedVersion ++ beBytes 2 ctx0.txOrder)
          ++ ([1, 2, 3, 4, 5, 6, 7, 8, 9, 10] : Bytes).drop (leVal [0, 0, 0, 0] + 10))) := by
  have h := versionstamp_substitution ctx0 none [1, 2, 3, 4, 5, 6, 7, 8, 9, 10]
    [0, 0, 0, 0] (by decide) (by decide) (by decide)
  exact ⟨by decide, by decide, by decide, h.1⟩

/-- C7: once the Network-scope machine is `Started`, no sequence of
events moves it out of `Started`; setting a "before network start"
option in `Started` fails with `OptionLateBinding`; and repeating the
startup transition is an idempotent no-op. -/
theorem network_oneway (evs : List NetEvent) (c : Int)
    (hc : c ∈ beforeNetworkStartOptions) :
    netRun .Started evs = .Started
  ∧ setNetOption .Started c = .error .OptionLateBinding
  ∧ netStep .Started .setup = .Started
  ∧ setupNetwork .Started = .Started := by
  refine ⟨netRun_started evs, ?_, rfl, rfl⟩
  have hmem := beforeStart_sub_network c hc
  simp [setNetOption, hmem, hc]

/-- Witness for C7: after startup, option 60 (disable multi-version
client API, tagged "must be set before setting up the network") fails
late, and further events leave the state `Started`. -/
theorem network_oneway_witness :
    (60 : Int) ∈ beforeNetworkStartOptions
  ∧ netRun .Started [NetEvent.setOption 60, NetEvent.setup, NetEvent.setOption 30]
      = .Started
  ∧ setNetOption .Started 60 = .error .OptionLateBinding := by
  have h := network_oneway
    [NetEvent.setOption 60, NetEvent.setup, NetEvent.setOption 30] 60 (by decide)
  exact ⟨by decide, h.1, h.2.1⟩

/-- C9: validating the Database-scope `max_watches` option (code 20)
succeeds exactly for parameters at most 1000000 and fails with
`OutOfRange` for every larger parameter; the declared default is 10000. -/
theorem max_watches_bound (n : Int) :
    (validateMaxWatches n = .ok n ↔ n ≤ 1000000)
  ∧ (1000000 < n → validateMaxWatches n = .error .OutOfRange)
  ∧ maxWatchesDefault = 10000
  ∧ FDB_DB_OPTION_MAX_WATCHES = 20 := by
  refine ⟨?_, ?_, rfl, rfl⟩
  · by_cases h : n ≤ 1000000
    · simp [validateMaxWatches, h]
    · simp [validateMaxWatches, h]
  · intro h
    have hn : ¬ n ≤ 1000000 := by omega
    simp [validateMaxWatches, hn]

/-- Witness for C9: 1000001 is rejected as out of range. -/
theorem max_watches_bound_witness :
    (1000000 : Int) < 1000001
  ∧ validateMaxWatches 1000001 = .error .OutOfRange := by
  exact ⟨by decide, (max_watches_bound 1000001).2.1 (by decide)⟩

/-- C10: below API version 520, SetVersionstampedKey reads the offset
from only the final two bytes of the key, and SetVersionstampedValue
places the versionstamp at the beginning of the parameter without
computing any offset. -/
theorem pre520_versionstamp (ctx : MutCtx) (existing : Option Bytes)
    (payload posBytes param : Bytes)
    (hapi : ctx.apiVersion < 520)
    (hlen : posBytes.length = 2)
    (hpos : leVal posBytes + 10 ≤ payload.length)
    (hp : 10 ≤ param.length) :
    MutationEngine.apply ctx existing .SetVersionstampedKey (payload ++ posBytes)
      = .ok (some (payload.take (leVal posBytes)
          ++ (beBytes 8 ctx.committedVersion ++ beBytes 2 ctx.txOrder)
          ++ payload.drop (leVal posBytes + 10)))
  ∧ MutationEngine.apply ctx existing .SetVersionstampedValue param
      = .ok (some ((beBytes 8 ctx.committedVersion ++ beBytes 2 ctx.txOrder)
          ++ param.drop 10)) := by
  have hnapi : ¬ 520 ≤ ctx.apiVersion := by omega
  have happ := applyVersionstamp_append ctx.vs payload posBytes 2 hlen hpos
  constructor
  · simp only [MutationEngine.apply, if_neg hnapi, happ, Except.map]
    rfl
  · simp only [MutationEngine.apply, if_neg hnapi, if_pos hp]
    rfl

/-- Witness for C10: at API version 510, the versionstamp lands at the
front of a 10-byte parameter, and the key offset comes from the final
two bytes. -/
theorem pre520_versionstamp_witness :
    ctx1.apiVersion < 520
  ∧ ([0, 0] : Bytes).length = 2
  ∧ leVal [0, 0] + 10 ≤ ([1, 2, 3, 4, 5, 6, 7, 8, 9, 10] : Bytes).length
  ∧ 10 ≤ ([1, 2, 3, 4, 5, 6, 7, 8, 9, 10] : Bytes).length
  ∧ MutationEngine.apply ctx1 none .SetVersionstampedValue
      [1, 2, 3, 4, 5, 6, 7, 8, 9, 10]
      = .ok (some ((beBytes 8 ctx1.committedVersion ++ beBytes 2 ctx1.txOrder)
          ++ ([1, 2, 3, 4, 5, 6, 7, 8, 9, 10] : Bytes).drop 10)) := by
  have h := pre520_versionstamp ctx1 none [1, 2, 3, 4, 5, 6, 7, 8, 9, 10]
    [0, 0] [1, 2, 3, 4, 5, 6, 7, 8, 9, 10] (by decide) (by decide) (by decide)
    (by decide)
  exact ⟨by decide, by decide, by decide, by decide, h.2⟩
